import Mathlib

/-!
Verification of the countdown-to-f1 playlist synchronization code.

The development shallowly embeds the JavaScript sources:
the persistent Configstore key-value state (utils/authUtils.js),
the Yoto service functions (services/yotoService.js: deployToAllDevices,
getDevices, createTextToSpeechPlaylist content assembly),
the logout route, the send-to-yoto route and the webhook refresh route.
JavaScript truthiness on strings is modelled explicitly (the empty string
is falsy); absent values are Option.none; functions that can throw return
Except values, with the thrown branch as Except.error.
-/

namespace CountdownF1

/-- JavaScript truthiness of an optional string: undefined, null and the
empty string are falsy, every other string is truthy. -/
def truthy : Option String → Bool
  | none => false
  | some s => s ≠ ""

/-- Stored OAuth token pair, the value under the Configstore key tokens.
The refresh token may be absent. -/
structure Tokens where
  accessToken : String
  refreshToken : Option String
deriving Repr, DecidableEq

/-- The Configstore persistent state: keys tokens, f1CardId, f1MyoCardId,
f1PlaylistTitle and f1DataHash of utils/authUtils.js. An absent key is
none. -/
structure Store where
  tokens : Option Tokens
  f1CardId : Option String
  f1MyoCardId : Option String
  f1PlaylistTitle : Option String
  f1DataHash : Option String
deriving Repr, DecidableEq

/-- authUtils.storeTokens: sets the tokens key to the given pair. -/
def storeTokens (accessToken : String) (refreshToken : Option String)
    (s : Store) : Store :=
  { s with tokens := some ⟨accessToken, refreshToken⟩ }

/-- authUtils.getStoredTokens: reads the tokens key. -/
def getStoredTokens (s : Store) : Option Tokens :=
  s.tokens

/-- authUtils.getAccessToken: returns the stored access token, or null when
no tokens are stored or the access token is falsy. -/
def getAccessToken (s : Store) : Option String :=
  match s.tokens with
  | none => none
  | some t => if t.accessToken = "" then none else some t.accessToken

/-- authUtils.clearTokens: deletes the tokens key. -/
def clearTokens (s : Store) : Store :=
  { s with tokens := none }

/-- authUtils.getStoredCardId: reads the f1CardId key. -/
def getStoredCardId (s : Store) : Option String :=
  s.f1CardId

/-- authUtils.storeCardId: passing null deletes the f1CardId key, any other
value is stored. -/
def storeCardId (cardId : Option String) (s : Store) : Store :=
  match cardId with
  | none => { s with f1CardId := none }
  | some c => { s with f1CardId := some c }

/-- authUtils.getStoredMyoCardId: reads the f1MyoCardId key. -/
def getStoredMyoCardId (s : Store) : Option String :=
  s.f1MyoCardId

/-- authUtils.storeMyoCardId: passing null deletes the f1MyoCardId key,
any other value is stored. -/
def storeMyoCardId (cardId : Option String) (s : Store) : Store :=
  match cardId with
  | none => { s with f1MyoCardId := none }
  | some c => { s with f1MyoCardId := some c }

/-- authUtils.getStoredPlaylistTitle: reads the f1PlaylistTitle key. -/
def getStoredPlaylistTitle (s : Store) : Option String :=
  s.f1PlaylistTitle

/-- authUtils.storePlaylistTitle: passing null deletes the key, any other
value is stored. -/
def storePlaylistTitle (title : Option String) (s : Store) : Store :=
  match title with
  | none => { s with f1PlaylistTitle := none }
  | some t => { s with f1PlaylistTitle := some t }

/-- authUtils.getStoredDataHash: reads the f1DataHash key, the hash of the
last successfully processed OpenF1 payload. -/
def getStoredDataHash (s : Store) : Option String :=
  s.f1DataHash

/-- authUtils.storeDataHash: passing null deletes the key, any other value
is stored. -/
def storeDataHash (hash : Option String) (s : Store) : Store :=
  match hash with
  | none => { s with f1DataHash := none }
  | some h => { s with f1DataHash := some h }

/-- Response of the OAuth token endpoint as consumed by refreshAccessToken:
the new access token and an optional new refresh token. None models an
HTTP failure or a thrown fetch error, both of which make
refreshAccessToken return null. -/
structure TokenRefreshResp where
  accessToken : String
  refreshToken : Option String
deriving Repr, DecidableEq

/-- authUtils.refreshAccessToken: returns null and leaves the store alone
when no truthy refresh token is stored or the token endpoint fails;
otherwise stores the new pair (keeping the old refresh token when the
response carries no truthy one) and returns the new access token. -/
def refreshAccessToken (resp : Option TokenRefreshResp) (s : Store) :
    Option String × Store :=
  match getStoredTokens s with
  | none => (none, s)
  | some toks =>
    if truthy toks.refreshToken then
      match resp with
      | none => (none, s)
      | some r =>
        let usedRefresh := if truthy r.refreshToken then r.refreshToken
          else toks.refreshToken
        (some r.accessToken, storeTokens r.accessToken usedRefresh s)
    else
      (none, s)

/-- The logout route handler (POST): clears tokens and deletes both stored
card ids. The GET handler runs the same three calls. -/
def logoutPOST (s : Store) : Store :=
  storeMyoCardId none (storeCardId none (clearTokens s))

/-- The logout route handler (GET), identical to the POST handler. -/
def logoutGET (s : Store) : Store :=
  storeMyoCardId none (storeCardId none (clearTokens s))

/-! ## Device deployment fan-out (services/yotoService.js) -/

/-- A registered playback device as returned by getDevices. -/
structure Device where
  id : String
  name : String
deriving Repr, DecidableEq

/-- Aggregate deployment result of deployToAllDevices. The JavaScript
object literally names its first field success (the count of fulfilled
per-device deliveries). -/
structure DeployAgg where
  success : Nat
  failed : Nat
  total : Nat
  devices : List (String × String)
deriving Repr, DecidableEq

/-- yotoService.deployToAllDevices. Takes the outcome of getDevices (an
Except, since getDevices throws on a non-ok response) and the settled
outcome of each per-device deployToDevice call (true for fulfilled, false
for rejected, as observed by Promise.allSettled). A getDevices failure is
rethrown; an empty device list yields the all-zero aggregate; otherwise
the fulfilled and rejected settlements are counted. -/
def deployToAllDevices (devicesResult : Except String (List Device))
    (deployOutcome : Device → Bool) : Except String DeployAgg :=
  match devicesResult with
  | .error e => .error e
  | .ok devices =>
    if devices.length = 0 then
      .ok ⟨0, 0, 0, []⟩
    else
      let results := devices.map deployOutcome
      .ok ⟨(results.filter (fun r => r)).length,
           (results.filter (fun r => !r)).length,
           devices.length,
           devices.map (fun d => (d.id, d.name))⟩

/-! ## TTS playlist content assembly (yotoService.createTextToSpeechPlaylist) -/

/-- A chapter-input track as passed to createTextToSpeechPlaylist:
display title, spoken text, optional icon, optional per-track voice. -/
structure TrackIn where
  title : String
  text : String
  icon : Option String
  voiceId : Option String
deriving Repr, DecidableEq

/-- A chapter input: display title, optional icon, ordered tracks. -/
structure ChapterIn where
  title : String
  icon : Option String
  tracks : List TrackIn
deriving Repr, DecidableEq

/-- String(n).padStart(2, zero): the decimal rendering of n, left-padded
with a zero when it is a single character. -/
def padStart2 (n : Nat) : String :=
  let s := toString n
  if s.length < 2 then "0" ++ s else s

/-- A track object of the submitted content tree. -/
structure TrackOut where
  key : String
  title : String
  trackUrl : String
  kind : String
  overlayLabel : String
  voiceId : String
  displayIcon : Option String
deriving Repr, DecidableEq

/-- A chapter object of the submitted content tree. -/
structure ChapterOut where
  key : String
  title : String
  overlayLabel : String
  tracks : List TrackOut
  displayIcon : Option String
deriving Repr, DecidableEq

/-- One track object as built inside createTextToSpeechPlaylist: the key is
the 1-based track position zero-padded to two digits, the text rides in
trackUrl, the type is elevenlabs, and the icon is attached only when
present. trackIndex is the 0-based position within the chapter. -/
def mkTrackOut (voiceId : String) (trackIndex : Nat) (track : TrackIn) :
    TrackOut :=
  { key := padStart2 (trackIndex + 1)
    title := track.title
    trackUrl := track.text
    kind := "elevenlabs"
    overlayLabel := toString (trackIndex + 1)
    voiceId := track.voiceId.getD voiceId
    displayIcon := track.icon }

/-- The track list of one chapter: chapters.map with the 0-based index, as
in the JavaScript source. -/
def mkTracks (voiceId : String) : Nat → List TrackIn → List TrackOut
  | _, [] => []
  | j, t :: ts => mkTrackOut voiceId j t :: mkTracks voiceId (j + 1) ts

/-- One chapter object as built inside createTextToSpeechPlaylist:
the key is the 1-based chapter position zero-padded to two digits. -/
def mkChapterOut (voiceId : String) (chapterIndex : Nat) (ch : ChapterIn) :
    ChapterOut :=
  { key := padStart2 (chapterIndex + 1)
    title := ch.title
    overlayLabel := toString (chapterIndex + 1)
    tracks := mkTracks voiceId 0 ch.tracks
    displayIcon := ch.icon }

/-- The chapter list of the content tree: map with the 0-based index. -/
def mkChapters (voiceId : String) : Nat → List ChapterIn → List ChapterOut
  | _, [] => []
  | i, c :: cs => mkChapterOut voiceId i c :: mkChapters voiceId (i + 1) cs

/-- The content.chapters array submitted by createTextToSpeechPlaylist for
a given chapter list and default voice. -/
def ttsContentChapters (voiceId : String) (chapters : List ChapterIn) :
    List ChapterOut :=
  mkChapters voiceId 0 chapters

/-! ## Transcoding wait (spec-modelled: the waitForTranscoding
implementation of services/yotoService.js is not among the provided
sources; only its call site in the MYO upload route is). -/

/-- Status of one transcode job as reported by the poll endpoint. A
succeeded status carries the usable audio reference. -/
inductive TranscodeStatus where
  | pending
  | processing
  | succeeded (audioRef : String)
  | failed
deriving Repr, DecidableEq

/-- Error classes of the upload pipeline. The three constructors are the
distinct conditions the design requires: transcoding timed out,
transcoding failed, and the upload itself rejected. -/
inductive UploadErr where
  | timedOut
  | transcodeFailed
  | uploadRejected
deriving Repr, DecidableEq

/-- Modelled from the spec: waitForTranscoding of services/yotoService.js
(implementation absent from the sources). Per the spec the pipeline polls
a transcode-status endpoint until terminal, succeeded yielding the usable
audio reference and failed an error surfaced to the caller, and polling
has an upper bound whose exhaustion yields the distinct timed-out
condition. poll gives the status observed at each attempt; maxAttempts is
the configured bound. Recursion is structural on the remaining attempt
budget, so the wait always terminates. -/
def waitForTranscoding (poll : Nat → TranscodeStatus) :
    Nat → Nat → Except UploadErr String
  | _, 0 => .error .timedOut
  | i, remaining + 1 =>
    match poll i with
    | .succeeded audioRef => .ok audioRef
    | .failed => .error .transcodeFailed
    | .pending => waitForTranscoding poll (i + 1) remaining
    | .processing => waitForTranscoding poll (i + 1) remaining

/-! ## Create-or-update reconciler (spec-modelled: the
createOrUpdateTTSPlaylist implementation of services/yotoService.js is
not among the provided sources; only its call sites in the send-to-yoto,
refresh-myo-playlist and webhook routes are). -/

/-- Backend behaviour observed by one reconciliation attempt:
whether the attempt aborts with an error, whether the backend forces a
create fallback on an attempted in-place update, the id assigned to a
newly created card, and the reported job status string. -/
structure ReconcileBackend where
  aborts : Bool
  forcesFallback : Bool
  freshCardId : String
  jobId : String
  jobStatus : String
deriving Repr, DecidableEq

/-- Result object of createOrUpdateTTSPlaylist as consumed by the routes:
cardId, isUpdate, jobId and status fields. -/
structure YotoResult where
  cardId : String
  isUpdate : Bool
  jobId : String
  status : String
deriving Repr, DecidableEq

/-- Modelled from the spec: createOrUpdateTTSPlaylist of
services/yotoService.js (implementation absent from the sources). Per the
spec reconcile decision logic: an absent prior card id always creates
(isUpdate false); a present prior card id is updated in place with the
same id (isUpdate true) unless the backend signals that in-place update
is impossible, in which case a new card is created (isUpdate false).
Failures propagate to the caller as thrown errors, modelled as
Except.error; a falsy prior id counts as absent. -/
def createOrUpdateTTSPlaylist (cardId : Option String)
    (backend : ReconcileBackend) : Except Unit YotoResult :=
  if backend.aborts then .error ()
  else
    match (if truthy cardId then cardId else none) with
    | none =>
      .ok ⟨backend.freshCardId, false, backend.jobId, backend.jobStatus⟩
    | some prior =>
      if backend.forcesFallback then
        .ok ⟨backend.freshCardId, false, backend.jobId, backend.jobStatus⟩
      else
        .ok ⟨prior, true, backend.jobId, backend.jobStatus⟩

/-! ## Webhook refresh route (api/webhook/refresh-playlist POST) -/

/-- The worker payload fields the webhook control flow inspects: the
embedded content hash, the race name (used to derive a fresh title), the
optional country flag (controls the flag-icon upload), and the
lastUpdated stamp echoed in responses. Remaining payload fields only feed
narration text and the response body and do not influence control flow or
stored state. -/
structure WorkerData where
  dataHash : Option String
  raceName : String
  countryFlag : Option String
  lastUpdated : String
deriving Repr, DecidableEq

/-- Outcomes of the external calls one webhook run makes, in program
order: the OAuth token refresh response, the worker data fetch, the three
image uploads (an error is a thrown exception reaching the outer catch),
the reconciliation backend behaviour, and the per-device deployment
outcomes consumed by deployToAllDevices. -/
structure WebhookWorld where
  tokenRefresh : Option TokenRefreshResp
  workerFetch : Except Unit WorkerData
  iconUpload : Except Unit (Option String)
  flagUpload : Except Unit (Option String)
  coverUpload : Except Unit (Option String)
  reconcile : ReconcileBackend
  devicesResult : Except String (List Device)
  deployOutcome : Device → Bool

/-- Environment and request of one webhook invocation: the configured
secret, the provided secret header, and the worker URL. -/
structure WebhookReq where
  webhookSecret : Option String
  providedSecret : Option String
  workerUrl : Option String
deriving Repr, DecidableEq

/-- External actions a webhook run performs after the worker fetch, in
order: icon upload, flag upload, cover upload, synthesis submission (with
the title it was given), device deployment. -/
inductive Action where
  | uploadIcon
  | uploadFlag
  | uploadCover
  | synthesize (title : String)
  | deployAll
deriving Repr, DecidableEq

/-- Terminal responses of the webhook POST handler. -/
inductive WebhookResp where
  | notConfigured
  | unauthorizedSecret
  | notAuthenticated
  | refreshFailed
  | noWorkerUrl
  | workerFetchFailed
  | skipped (dataHash : String)
  | completed (cardId : String) (isUpdate : Bool) (title : String)
      (deployment : Option DeployAgg)
  | serverError
deriving Repr, DecidableEq

/-- Result of one webhook run: the response, the final store, and the
trace of external pipeline actions performed. -/
structure WebhookRun where
  resp : WebhookResp
  store : Store
  trace : List Action

/-- Steps 7 to 12 of the webhook handler, from the cover upload onward:
cover upload, stored-identity lookup, title selection (reuse a truthy
stored title verbatim, otherwise derive F1: followed by the race name),
reconciliation, the conditional identity-store writes, the unconditional
data-hash write, and best-effort device deployment. preTrace is the
trace of the icon uploads already performed. A thrown error reaches the
outer catch, which returns the 500 response without touching the
store. -/
def webhookPipelineTail (w : WebhookWorld) (wd : WorkerData)
    (newDataHash : Option String) (s : Store) (preTrace : List Action) :
    WebhookRun :=
  match w.coverUpload with
  | .error _ => ⟨.serverError, s, preTrace ++ [.uploadCover]⟩
  | .ok _ =>
    let title := if truthy (getStoredPlaylistTitle s) then
        (getStoredPlaylistTitle s).getD ""
      else "F1: " ++ wd.raceName
    let fullTrace := preTrace ++ [.uploadCover, .synthesize title]
    match createOrUpdateTTSPlaylist (getStoredCardId s) w.reconcile with
    | .error _ => ⟨.serverError, s, fullTrace⟩
    | .ok yotoResult =>
      let s₁ := if yotoResult.cardId ≠ "" then
          storePlaylistTitle (some title)
            (storeCardId (some yotoResult.cardId) s)
        else s
      let s₂ := if truthy newDataHash then storeDataHash newDataHash s₁
        else s₁
      if yotoResult.cardId ≠ "" && yotoResult.status ≠ "failed" then
        ⟨.completed yotoResult.cardId yotoResult.isUpdate title
            (match deployToAllDevices w.devicesResult w.deployOutcome with
             | .ok agg => some agg
             | .error _ => none),
         s₂, fullTrace ++ [.deployAll]⟩
      else
        ⟨.completed yotoResult.cardId yotoResult.isUpdate title none,
         s₂, fullTrace⟩

/-- The pipeline tail of the webhook handler, from the icon uploads
onward (steps 6 to 12 of the route), reached only when the data-hash
short-circuit did not fire: icon upload, then the flag-icon upload when
the payload carries a truthy country flag, then the rest of the
pipeline. -/
def webhookPipeline (w : WebhookWorld) (wd : WorkerData)
    (newDataHash : Option String) (s : Store) : WebhookRun :=
  match w.iconUpload with
  | .error _ => ⟨.serverError, s, [.uploadIcon]⟩
  | .ok _ =>
    match (if truthy wd.countryFlag then w.flagUpload else .ok none) with
    | .error _ => ⟨.serverError, s,
        if truthy wd.countryFlag then [.uploadIcon, .uploadFlag]
        else [.uploadIcon]⟩
    | .ok _ => webhookPipelineTail w wd newDataHash s
        (if truthy wd.countryFlag then [.uploadIcon, .uploadFlag]
         else [.uploadIcon])

/-- The webhook POST handler of api/webhook/refresh-playlist: secret
verification, authentication check, transparent token refresh, worker
fetch, data-hash short-circuit, then the upload/synthesis pipeline with
identity-store writes and best-effort device deployment. -/
def webhookRefreshPOST (req : WebhookReq) (w : WebhookWorld)
    (s : Store) : WebhookRun :=
  if ¬ truthy req.webhookSecret then ⟨.notConfigured, s, []⟩
  else if ¬ (truthy req.providedSecret
      && req.providedSecret == req.webhookSecret) then
    ⟨.unauthorizedSecret, s, []⟩
  else
    match getAccessToken s with
    | none => ⟨.notAuthenticated, s, []⟩
    | some _ =>
      if truthy (refreshAccessToken w.tokenRefresh s).1 ∨
          ¬ truthy ((getStoredTokens
            (refreshAccessToken w.tokenRefresh s).2).bind
            (·.refreshToken)) then
        if ¬ truthy req.workerUrl then
          ⟨.noWorkerUrl, (refreshAccessToken w.tokenRefresh s).2, []⟩
        else
          match w.workerFetch with
          | .error _ =>
            ⟨.workerFetchFailed, (refreshAccessToken w.tokenRefresh s).2, []⟩
          | .ok wd =>
            if truthy wd.dataHash
                && truthy (getStoredDataHash
                  (refreshAccessToken w.tokenRefresh s).2)
                && getStoredDataHash (refreshAccessToken w.tokenRefresh s).2
                  == wd.dataHash then
              ⟨.skipped (wd.dataHash.getD ""),
               (refreshAccessToken w.tokenRefresh s).2, []⟩
            else
              webhookPipeline w wd wd.dataHash
                (refreshAccessToken w.tokenRefresh s).2
      else
        ⟨.refreshFailed, (refreshAccessToken w.tokenRefresh s).2, []⟩

/-! ## Send-to-yoto route (api/send-to-yoto POST) -/

/-- Parsed request body of the send-to-yoto route after destructuring
defaults: chapters (none models a missing or non-array field), the title
(defaulting to F1: Next Race) and the updateExisting flag (defaulting to
true). -/
structure SendReq where
  chapters : Option (List ChapterIn)
  title : String
  updateExisting : Bool

/-- Outcomes of the external calls one send-to-yoto run makes: the cover
upload, the reconciliation backend behaviour, and the device enumeration
and per-device deployment outcomes. -/
structure SendWorld where
  coverUpload : Except Unit (Option String)
  reconcile : ReconcileBackend
  devicesResult : Except String (List Device)
  deployOutcome : Device → Bool

/-- Terminal responses of the send-to-yoto POST handler. -/
inductive SendResp where
  | notAuthenticated
  | badRequest
  | completed (cardId : String) (isUpdate : Bool)
      (deployment : Option DeployAgg)
  | serverError
deriving Repr, DecidableEq

/-- The send-to-yoto POST handler: authentication check, body validation,
cover upload, stored-card lookup gated on updateExisting, reconciliation,
identity-store writes on a truthy returned card id, then best-effort
device deployment (a deployment throw is downgraded to a zero aggregate
rather than failing the request). -/
def sendToYotoPOST (req : SendReq) (w : SendWorld) (s : Store) :
    SendResp × Store :=
  match getAccessToken s with
  | none => (.notAuthenticated, s)
  | some _ =>
    match req.chapters with
    | none => (.badRequest, s)
    | some chapters =>
      if chapters.length = 0 then (.badRequest, s)
      else
        match w.coverUpload with
        | .error _ => (.serverError, s)
        | .ok _ =>
          let existingCardId :=
            if req.updateExisting then getStoredCardId s else none
          match createOrUpdateTTSPlaylist existingCardId w.reconcile with
          | .error _ => (.serverError, s)
          | .ok yotoResult =>
            let s₁ := if yotoResult.cardId ≠ "" then
                storePlaylistTitle (some req.title)
                  (storeCardId (some yotoResult.cardId) s)
              else s
            let deployment : Option DeployAgg :=
              if yotoResult.cardId ≠ "" then
                match deployToAllDevices w.devicesResult w.deployOutcome with
                | .ok agg => some agg
                | .error _ => some ⟨0, 0, 0, []⟩
              else none
            (.completed yotoResult.cardId yotoResult.isUpdate deployment,
             s₁)

/-! ## Auxiliary predicates and concrete example inputs -/

/-- A transcode status is terminal when it reports success or failure. -/
def isTerminalStatus : TranscodeStatus → Bool
  | .succeeded _ => true
  | .failed => true
  | .pending => false
  | .processing => false

/-- A webhook response is an abort when the run ended in an error
response rather than in the skipped short-circuit or a completed
pipeline. -/
def isAbortResp : WebhookResp → Bool
  | .skipped _ => false
  | .completed _ _ _ _ => false
  | _ => true

/-- The race name carried by a successful worker fetch (irrelevant filler
when the fetch failed, in which case no pipeline ever runs). -/
def raceNameOf (w : WebhookWorld) : String :=
  match w.workerFetch with
  | .ok wd => wd.raceName
  | .error _ => ""

/-- A sequence of webhook refresh invocations, threading the persistent
store through the runs. -/
def webhookRuns : List (WebhookReq × WebhookWorld) → Store → Store
  | [], s => s
  | (req, w) :: rest, s => webhookRuns rest (webhookRefreshPOST req w s).store

/-- An example external world in which every call succeeds: the worker
returns a payload with hash h1, reconciliation creates card-1, no
devices are registered. -/
def exWorld : WebhookWorld :=
  { tokenRefresh := none
    workerFetch := .ok ⟨some "h1", "Monaco Grand Prix", none, "2026-05-01"⟩
    iconUpload := .ok none
    flagUpload := .ok none
    coverUpload := .ok none
    reconcile := ⟨false, false, "card-1", "job-1", "ok"⟩
    devicesResult := .ok []
    deployOutcome := fun _ => true }

/-- An example webhook request with a matching secret and a configured
worker URL. -/
def exReq : WebhookReq :=
  ⟨some "sec", some "sec", some "https://worker.example"⟩

/-- An example authenticated store holding an access token but no refresh
token, a stored card, title and hash. -/
def exStore : Store :=
  ⟨some ⟨"tok", none⟩, some "card-0", none, some "F1: Spanish Grand Prix",
   some "h1"⟩

/-! ## Helper lemmas -/

/-- Splitting a boolean list by its value partitions its length. -/
theorem length_filter_id_add_length_filter_not (l : List Bool) :
    (l.filter (fun r => r)).length + (l.filter (fun r => !r)).length
      = l.length := by
  induction l with
  | nil => rfl
  | cons b t ih =>
    cases b <;> simp [List.filter_cons] <;> omega

/-- refreshAccessToken only touches the tokens key: the card ids, the
playlist title and the data hash are untouched. -/
theorem refreshAccessToken_frame (r : Option TokenRefreshResp)
    (s : Store) :
    (refreshAccessToken r s).2.f1CardId = s.f1CardId ∧
    (refreshAccessToken r s).2.f1MyoCardId = s.f1MyoCardId ∧
    (refreshAccessToken r s).2.f1PlaylistTitle = s.f1PlaylistTitle ∧
    (refreshAccessToken r s).2.f1DataHash = s.f1DataHash := by
  unfold refreshAccessToken
  cases hs : getStoredTokens s with
  | none => exact ⟨rfl, rfl, rfl, rfl⟩
  | some toks =>
    by_cases ht : truthy toks.refreshToken
    · cases r with
      | none => simp [ht]
      | some rr => simp [ht, storeTokens]
    · simp [ht]

/-- mkTracks preserves the track count. -/
theorem mkTracks_length (v : String) (k : Nat) (ts : List TrackIn) :
    (mkTracks v k ts).length = ts.length := by
  induction ts generalizing k with
  | nil => rfl
  | cons t ts ih => simp [mkTracks, ih]

/-- Positional access into the indexed track map. -/
theorem mkTracks_getElem? (v : String) (k j : Nat) (ts : List TrackIn) :
    (mkTracks v k ts)[j]? = ts[j]?.map (fun t => mkTrackOut v (k + j) t) := by
  induction ts generalizing k j with
  | nil => simp [mkTracks]
  | cons t ts ih =>
    cases j with
    | zero => simp [mkTracks]
    | succ j =>
      simp only [mkTracks, List.getElem?_cons_succ, ih (k + 1) j]
      have : k + 1 + j = k + (j + 1) := by omega
      rw [this]

/-- Positional access into the indexed chapter map. -/
theorem mkChapters_getElem? (v : String) (k i : Nat)
    (cs : List ChapterIn) :
    (mkChapters v k cs)[i]? = cs[i]?.map (fun c => mkChapterOut v (k + i) c) := by
  induction cs generalizing k i with
  | nil => simp [mkChapters]
  | cons c cs ih =>
    cases i with
    | zero => simp [mkChapters]
    | succ i =>
      simp only [mkChapters, List.getElem?_cons_succ, ih (k + 1) i]
      have : k + 1 + i = k + (i + 1) := by omega
      rw [this]

/-- When no poll within the attempt budget reports a terminal status, the
wait ends in the timed-out error. -/
theorem waitForTranscoding_timeout_aux (poll : Nat → TranscodeStatus) :
    ∀ n start, (∀ i, i < start + n → isTerminalStatus (poll i) = false) →
    waitForTranscoding poll start n = .error .timedOut := by
  intro n
  induction n with
  | zero => intro start _; rfl
  | succ n ih =>
    intro start h
    have h0 : isTerminalStatus (poll start) = false := h start (by omega)
    unfold waitForTranscoding
    cases hp : poll start with
    | succeeded r => rw [hp] at h0; simp [isTerminalStatus] at h0
    | failed => rw [hp] at h0; simp [isTerminalStatus] at h0
    | pending => exact ih (start + 1) (fun i hi => h i (by omega))
    | processing => exact ih (start + 1) (fun i hi => h i (by omega))

/-- A successful reconciliation with a truthy fresh card id always
returns a truthy card id: the created id or the truthy prior id. -/
theorem createOrUpdateTTSPlaylist_ok_cardId (cid : Option String)
    (b : ReconcileBackend) (r : YotoResult)
    (h : createOrUpdateTTSPlaylist cid b = .ok r)
    (hb : b.freshCardId ≠ "") : r.cardId ≠ "" := by
  unfold createOrUpdateTTSPlaylist at h
  by_cases ha : b.aborts = true
  · simp [ha] at h
  · rw [if_neg (by simp [ha])] at h
    by_cases htc : truthy cid = true
    · rw [if_pos htc] at h
      cases cid with
      | none => simp [truthy] at htc
      | some prior =>
        have hp : prior ≠ "" := by simpa [truthy] using htc
        by_cases hf : b.forcesFallback = true
        · simp only [hf, if_true] at h
          cases h
          exact hb
        · simp only [if_neg (by simp [hf] : ¬ b.forcesFallback = true)] at h
          cases h
          exact hp
    · rw [if_neg htc] at h
      cases h
      exact hb

/-- Every run of the cover-onward pipeline tail either aborts with the
500 response and an untouched store, or returns a completed response
whose card id is truthy whenever the backend assigns truthy fresh
ids. -/
theorem webhookPipelineTail_cases (w : WebhookWorld) (wd : WorkerData)
    (ndh : Option String) (s : Store) (pre : List Action) :
    (∃ c u t d,
       (webhookPipelineTail w wd ndh s pre).resp = .completed c u t d ∧
       (w.reconcile.freshCardId ≠ "" → c ≠ "")) ∨
    ((webhookPipelineTail w wd ndh s pre).resp = .serverError ∧
     (webhookPipelineTail w wd ndh s pre).store = s) := by
  unfold webhookPipelineTail
  repeat' split
  all_goals first
    | exact Or.inr ⟨rfl, rfl⟩
    | exact Or.inl ⟨_, _, _, _, rfl, fun hb =>
        createOrUpdateTTSPlaylist_ok_cardId _ _ _ (by assumption) hb⟩

/-- Every run of the webhook pipeline either aborts with the 500
response and an untouched store, or returns a completed response whose
card id is truthy whenever the backend assigns truthy fresh ids. -/
theorem webhookPipeline_cases (w : WebhookWorld) (wd : WorkerData)
    (ndh : Option String) (s : Store) :
    (∃ c u t d, (webhookPipeline w wd ndh s).resp = .completed c u t d ∧
       (w.reconcile.freshCardId ≠ "" → c ≠ "")) ∨
    ((webhookPipeline w wd ndh s).resp = .serverError ∧
     (webhookPipeline w wd ndh s).store = s) := by
  unfold webhookPipeline
  cases w.iconUpload with
  | error e => exact Or.inr ⟨rfl, rfl⟩
  | ok v =>
    cases hf : (if truthy wd.countryFlag then w.flagUpload
        else Except.ok none) with
    | error e => exact Or.inr ⟨rfl, rfl⟩
    | ok v2 => exact webhookPipelineTail_cases w wd ndh s _

/-- Shape of a webhook run: either it exits before the pipeline (empty
trace, card id, title and hash untouched, and no completed response —
this covers all error responses and the skipped short-circuit), or the
worker fetch succeeded and the run is exactly the pipeline applied to
the post-refresh store. -/
theorem webhookRefreshPOST_shape (req : WebhookReq) (w : WebhookWorld)
    (s : Store) :
    ((webhookRefreshPOST req w s).trace = [] ∧
     (webhookRefreshPOST req w s).store.f1CardId = s.f1CardId ∧
     (webhookRefreshPOST req w s).store.f1PlaylistTitle
       = s.f1PlaylistTitle ∧
     (webhookRefreshPOST req w s).store.f1DataHash = s.f1DataHash ∧
     ∀ c u t d,
       (webhookRefreshPOST req w s).resp ≠ .completed c u t d) ∨
    (∃ wd, w.workerFetch = .ok wd ∧
      webhookRefreshPOST req w s =
        webhookPipeline w wd wd.dataHash
          (refreshAccessToken w.tokenRefresh s).2) := by
  obtain ⟨hc, hm, ht, hh⟩ := refreshAccessToken_frame w.tokenRefresh s
  unfold webhookRefreshPOST
  repeat' split
  all_goals
    first
      | exact Or.inl ⟨rfl, rfl, rfl, rfl, fun c u t d h => by cases h⟩
      | exact Or.inl ⟨rfl, hc, ht, hh, fun c u t d h => by cases h⟩
      | exact Or.inr ⟨_, by assumption, rfl⟩

/-- storeDataHash never touches the playlist title. -/
theorem storeDataHash_f1PlaylistTitle (hh : Option String) (s : Store) :
    (storeDataHash hh s).f1PlaylistTitle = s.f1PlaylistTitle := by
  cases hh <;> rfl

/-- storeDataHash never touches the card id. -/
theorem storeDataHash_f1CardId (hh : Option String) (s : Store) :
    (storeDataHash hh s).f1CardId = s.f1CardId := by
  cases hh <;> rfl

/-- storeCardId never touches the playlist title. -/
theorem storeCardId_f1PlaylistTitle (c : Option String) (s : Store) :
    (storeCardId c s).f1PlaylistTitle = s.f1PlaylistTitle := by
  cases c <;> rfl

/-- With a truthy stored title t, the pipeline tail keeps the stored
title equal to t and only ever submits t to the synthesis backend. -/
theorem webhookPipelineTail_title (w : WebhookWorld) (wd : WorkerData)
    (ndh : Option String) (s : Store) (pre : List Action) (t : String)
    (ht : s.f1PlaylistTitle = some t) (hne : t ≠ "") :
    (webhookPipelineTail w wd ndh s pre).store.f1PlaylistTitle
      = some t ∧
    ∀ u, Action.synthesize u ∈ (webhookPipelineTail w wd ndh s pre).trace →
      Action.synthesize u ∈ pre ∨ u = t := by
  unfold webhookPipelineTail
  repeat' split
  all_goals
    simp_all [getStoredPlaylistTitle, truthy, storePlaylistTitle,
      storeDataHash_f1PlaylistTitle, storeCardId_f1PlaylistTitle,
      List.mem_append, hne]

/-- With no stored title, the pipeline tail only ever submits the
freshly derived title to the synthesis backend, and a completed run that
returned a truthy card id stores exactly the title it reported. -/
theorem webhookPipelineTail_fresh (w : WebhookWorld) (wd : WorkerData)
    (ndh : Option String) (s : Store) (pre : List Action)
    (ht : s.f1PlaylistTitle = none) :
    (∀ u, Action.synthesize u ∈ (webhookPipelineTail w wd ndh s pre).trace →
       Action.synthesize u ∈ pre ∨ u = "F1: " ++ wd.raceName) ∧
    (∀ c u tt d,
       (webhookPipelineTail w wd ndh s pre).resp = .completed c u tt d →
       tt = "F1: " ++ wd.raceName ∧
       (c ≠ "" →
         (webhookPipelineTail w wd ndh s pre).store.f1PlaylistTitle
           = some tt)) := by
  unfold webhookPipelineTail
  repeat' split
  all_goals
    simp_all [getStoredPlaylistTitle, truthy, storePlaylistTitle,
      storeDataHash_f1PlaylistTitle, storeCardId_f1PlaylistTitle,
      List.mem_append]

/-- With a truthy stored title t, the whole pipeline keeps the stored
title equal to t and only ever submits t to the synthesis backend. -/
theorem webhookPipeline_title (w : WebhookWorld) (wd : WorkerData)
    (ndh : Option String) (s : Store) (t : String)
    (ht : s.f1PlaylistTitle = some t) (hne : t ≠ "") :
    (webhookPipeline w wd ndh s).store.f1PlaylistTitle = some t ∧
    ∀ u, Action.synthesize u ∈ (webhookPipeline w wd ndh s).trace →
      u = t := by
  unfold webhookPipeline
  cases w.iconUpload with
  | error e => exact ⟨ht, by simp⟩
  | ok v =>
    cases hf : (if truthy wd.countryFlag then w.flagUpload
        else Except.ok none) with
    | error e =>
      refine ⟨ht, fun u hu => ?_⟩
      by_cases hcf : truthy wd.countryFlag = true <;> simp [hcf] at hu
    | ok v2 =>
      obtain ⟨h1, h2⟩ := webhookPipelineTail_title w wd ndh s _ t ht hne
      refine ⟨h1, fun u hu => ?_⟩
      rcases h2 u hu with hmem | heq
      · by_cases hcf : truthy wd.countryFlag = true <;> simp [hcf] at hmem
      · exact heq

/-- With no stored title, the whole pipeline only submits the freshly
derived title, and a completed run with a truthy card id stores exactly
the title it reported. -/
theorem webhookPipeline_fresh (w : WebhookWorld) (wd : WorkerData)
    (ndh : Option String) (s : Store)
    (ht : s.f1PlaylistTitle = none) :
    (∀ u, Action.synthesize u ∈ (webhookPipeline w wd ndh s).trace →
       u = "F1: " ++ wd.raceName) ∧
    (∀ c u tt d,
       (webhookPipeline w wd ndh s).resp = .completed c u tt d →
       tt = "F1: " ++ wd.raceName ∧
       (c ≠ "" →
         (webhookPipeline w wd ndh s).store.f1PlaylistTitle = some tt)) := by
  unfold webhookPipeline
  cases w.iconUpload with
  | error e =>
    exact ⟨fun u hu => by simp at hu, fun c u tt d hr => by simp at hr⟩
  | ok v =>
    cases hf : (if truthy wd.countryFlag then w.flagUpload
        else Except.ok none) with
    | error e =>
      refine ⟨fun u hu => ?_, fun c u tt d hr => by simp at hr⟩
      by_cases hcf : truthy wd.countryFlag = true <;> simp [hcf] at hu
    | ok v2 =>
      obtain ⟨h1, h2⟩ := webhookPipelineTail_fresh w wd ndh s _ ht
      refine ⟨fun u hu => ?_, h2⟩
      rcases h1 u hu with hmem | heq
      · by_cases hcf : truthy wd.countryFlag = true <;> simp [hcf] at hmem
      · exact heq

/-- One webhook run preserves a truthy stored title and only submits it
to the synthesis backend. -/
theorem webhookRefreshPOST_title_invariant (req : WebhookReq)
    (w : WebhookWorld) (s : Store) (t : String)
    (ht : s.f1PlaylistTitle = some t) (hne : t ≠ "") :
    (webhookRefreshPOST req w s).store.f1PlaylistTitle = some t ∧
    ∀ u, Action.synthesize u ∈ (webhookRefreshPOST req w s).trace →
      u = t := by
  rcases webhookRefreshPOST_shape req w s with
    ⟨htr, h1, h2, h3, _⟩ | ⟨wd, hwd, heq⟩
  · refine ⟨by rw [h2, ht], fun u hu => ?_⟩
    rw [htr] at hu
    simp at hu
  · obtain ⟨fc, fm, ft, fh⟩ := refreshAccessToken_frame w.tokenRefresh s
    have ht0 : (refreshAccessToken w.tokenRefresh s).2.f1PlaylistTitle
        = some t := by rw [ft, ht]
    obtain ⟨p1, p2⟩ := webhookPipeline_title w wd wd.dataHash _ t ht0 hne
    rw [heq]
    exact ⟨p1, p2⟩

/-- One webhook run from a store with no stored title only submits the
freshly derived title, and stores the title it reports on a completed
run with a truthy card id. -/
theorem webhookRefreshPOST_fresh (req : WebhookReq) (w : WebhookWorld)
    (s : Store) (ht : s.f1PlaylistTitle = none) :
    (∀ u, Action.synthesize u ∈ (webhookRefreshPOST req w s).trace →
       u = "F1: " ++ raceNameOf w) ∧
    (∀ c u tt d,
       (webhookRefreshPOST req w s).resp = .completed c u tt d →
       tt = "F1: " ++ raceNameOf w ∧
       (c ≠ "" →
         (webhookRefreshPOST req w s).store.f1PlaylistTitle = some tt)) := by
  rcases webhookRefreshPOST_shape req w s with
    ⟨htr, h1, h2, h3, hnc⟩ | ⟨wd, hwd, heq⟩
  · refine ⟨fun u hu => ?_, fun c u tt d hr => (hnc c u tt d hr).elim⟩
    rw [htr] at hu
    simp at hu
  · have hrn : raceNameOf w = wd.raceName := by simp [raceNameOf, hwd]
    obtain ⟨fc, fm, ft, fh⟩ := refreshAccessToken_frame w.tokenRefresh s
    have ht0 : (refreshAccessToken w.tokenRefresh s).2.f1PlaylistTitle
        = none := by rw [ft, ht]
    obtain ⟨p1, p2⟩ := webhookPipeline_fresh w wd wd.dataHash _ ht0
    rw [heq, hrn]
    exact ⟨p1, p2⟩

/-- A truthy stored title survives any sequence of webhook runs. -/
theorem webhookRuns_title (cfgs : List (WebhookReq × WebhookWorld)) :
    ∀ s t, s.f1PlaylistTitle = some t → t ≠ "" →
    (webhookRuns cfgs s).f1PlaylistTitle = some t := by
  induction cfgs with
  | nil => intro s t ht _; exact ht
  | cons cfg rest ih =>
    intro s t ht hne
    obtain ⟨req, w⟩ := cfg
    obtain ⟨h1, _⟩ := webhookRefreshPOST_title_invariant req w s t ht hne
    exact ih _ t h1 hne

/-! ## Claim theorems -/

/-- C10: Logout (both GET and POST) deletes the stored tokens and both
stored card ids but leaves the stored playlist title and the stored data
hash unchanged; hence a later card creation still sees the previous title
and the previous fingerprint still governs the short-circuit
comparison. -/
theorem logout_frame (s : Store) :
    (logoutPOST s).tokens = none ∧
    (logoutPOST s).f1CardId = none ∧
    (logoutPOST s).f1MyoCardId = none ∧
    (logoutPOST s).f1PlaylistTitle = s.f1PlaylistTitle ∧
    (logoutPOST s).f1DataHash = s.f1DataHash ∧
    logoutGET s = logoutPOST s :=
  ⟨rfl, rfl, rfl, rfl, rfl, rfl⟩

/-- C7: deployToAllDevices on an empty device registry returns the
all-zero aggregate as a success, whatever the per-device outcomes would
have been, and does not throw. -/
theorem deployToAllDevices_empty (deployOutcome : Device → Bool) :
    deployToAllDevices (.ok []) deployOutcome
      = .ok ⟨0, 0, 0, []⟩ :=
  rfl

/-- C5: with three registered devices where delivery to the second fails
and the other two succeed, deployToAllDevices returns the aggregate with
success count 2, failed count 1 and total 3, and does not throw. -/
theorem deployToAllDevices_two_of_three :
    deployToAllDevices
      (.ok [⟨"dev1", "Living Room"⟩, ⟨"dev2", "Bedroom"⟩,
            ⟨"dev3", "Kitchen"⟩])
      (fun d => d.id ≠ "dev2")
    = .ok ⟨2, 1, 3, [("dev1", "Living Room"), ("dev2", "Bedroom"),
                     ("dev3", "Kitchen")]⟩ := by
  rfl

/-- C9: whenever device enumeration succeeds, the aggregate produced by
deployToAllDevices satisfies success plus failed equals total, and total
equals the number of enumerated devices. -/
theorem deployToAllDevices_conservation (devices : List Device)
    (deployOutcome : Device → Bool) (agg : DeployAgg)
    (h : deployToAllDevices (.ok devices) deployOutcome = .ok agg) :
    agg.success + agg.failed = agg.total ∧
    agg.total = devices.length := by
  simp only [deployToAllDevices] at h
  by_cases hlen : devices.length = 0
  · rw [if_pos hlen] at h
    cases h
    simp [hlen]
  · rw [if_neg hlen] at h
    cases h
    refine ⟨?_, rfl⟩
    have := length_filter_id_add_length_filter_not
      (devices.map deployOutcome)
    simpa using this

/-- Witness for C9 at a concrete two-device registry where both
deliveries succeed. -/
theorem deployToAllDevices_conservation_witness :
    (DeployAgg.mk 2 0 2 [("a", "A"), ("b", "B")]).success +
      (DeployAgg.mk 2 0 2 [("a", "A"), ("b", "B")]).failed =
      (DeployAgg.mk 2 0 2 [("a", "A"), ("b", "B")]).total ∧
    (DeployAgg.mk 2 0 2 [("a", "A"), ("b", "B")]).total =
      ([⟨"a", "A"⟩, ⟨"b", "B"⟩] : List Device).length :=
  deployToAllDevices_conservation [⟨"a", "A"⟩, ⟨"b", "B"⟩]
    (fun _ => true) ⟨2, 0, 2, [("a", "A"), ("b", "B")]⟩ rfl

/-- C8: in the content tree submitted by createTextToSpeechPlaylist, the
chapter at 0-based position i carries key padStart2 of i plus one, and
within any chapter the track at 0-based position j carries key padStart2
of j plus one, independently of any title. -/
theorem tts_chapter_track_keys (v : String) (cs : List ChapterIn)
    (i : Nat) (hi : i < cs.length) :
    ∃ ch, (ttsContentChapters v cs)[i]? = some ch ∧
      ch.key = padStart2 (i + 1) ∧
      ∀ j, j < ch.tracks.length →
        ∃ tr, ch.tracks[j]? = some tr ∧ tr.key = padStart2 (j + 1) := by
  have hcs : cs[i]? = some cs[i] := List.getElem?_eq_getElem hi
  refine ⟨mkChapterOut v i cs[i], ?_, rfl, ?_⟩
  · rw [ttsContentChapters, mkChapters_getElem?, hcs]
    simp
  · intro j hj
    have hlen : (mkTracks v 0 cs[i].tracks).length = cs[i].tracks.length :=
      mkTracks_length v 0 cs[i].tracks
    have hj' : j < cs[i].tracks.length := by
      simpa [mkChapterOut, hlen] using hj
    have hts : cs[i].tracks[j]? = some (cs[i].tracks[j]) :=
      List.getElem?_eq_getElem hj'
    refine ⟨mkTrackOut v j cs[i].tracks[j], ?_, rfl⟩
    show (mkTracks v 0 cs[i].tracks)[j]? = _
    rw [mkTracks_getElem?, hts]
    simp

/-- Witness for C8 at a one-chapter, two-track content tree. -/
theorem tts_chapter_track_keys_witness :
    0 < ([⟨"Next F1 Race", none,
          [⟨"Intro", "hello", none, none⟩,
           ⟨"Race", "details", none, none⟩]⟩] : List ChapterIn).length ∧
    ∃ ch, (ttsContentChapters "voice"
        [⟨"Next F1 Race", none,
          [⟨"Intro", "hello", none, none⟩,
           ⟨"Race", "details", none, none⟩]⟩])[0]? = some ch ∧
      ch.key = padStart2 1 ∧
      ∀ j, j < ch.tracks.length →
        ∃ tr, ch.tracks[j]? = some tr ∧ tr.key = padStart2 (j + 1) :=
  ⟨by decide,
   tts_chapter_track_keys "voice"
     [⟨"Next F1 Race", none,
       [⟨"Intro", "hello", none, none⟩,
        ⟨"Race", "details", none, none⟩]⟩] 0 (by decide)⟩

/-- C6: a transcode job that never reports a terminal status within the
configured attempt budget makes waitForTranscoding return the timed-out
error: the wait cannot hang (the recursion is structurally bounded by the
budget), never reports a false success, and the timed-out condition is
distinct from the transcoding-failed and upload-rejected conditions. -/
theorem transcode_wait_bounded (poll : Nat → TranscodeStatus)
    (maxAttempts : Nat)
    (h : ∀ i, i < maxAttempts → isTerminalStatus (poll i) = false) :
    waitForTranscoding poll 0 maxAttempts = .error .timedOut ∧
    (∀ audioRef, waitForTranscoding poll 0 maxAttempts ≠ .ok audioRef) ∧
    (UploadErr.timedOut ≠ UploadErr.transcodeFailed ∧
     UploadErr.timedOut ≠ UploadErr.uploadRejected) := by
  have hto : waitForTranscoding poll 0 maxAttempts = .error .timedOut :=
    waitForTranscoding_timeout_aux poll maxAttempts 0
      (fun i hi => h i (by omega))
  refine ⟨hto, ?_, by decide, by decide⟩
  intro audioRef hok
  rw [hto] at hok
  cases hok

/-- C1: a webhook refresh whose worker payload carries a (non-empty,
hence truthy) dataHash equal to the stored content fingerprint returns
the skipped result, performs no upload, synthesis or deployment action,
and leaves the stored card id, playlist title and data hash
unchanged. -/
theorem webhook_skip_short_circuit (req : WebhookReq) (w : WebhookWorld)
    (s : Store) (wd : WorkerData) (h tok : String)
    (hsec : truthy req.webhookSecret = true)
    (hprov : req.providedSecret = req.webhookSecret)
    (hauth : getAccessToken s = some tok)
    (hrefresh : truthy (refreshAccessToken w.tokenRefresh s).1 = true ∨
      truthy ((getStoredTokens
        (refreshAccessToken w.tokenRefresh s).2).bind
        (fun x => x.refreshToken)) = false)
    (hurl : truthy req.workerUrl = true)
    (hfetch : w.workerFetch = .ok wd)
    (hhash : wd.dataHash = some h)
    (hne : h ≠ "")
    (hstored : s.f1DataHash = some h) :
    (webhookRefreshPOST req w s).resp = .skipped h ∧
    (webhookRefreshPOST req w s).trace = [] ∧
    (webhookRefreshPOST req w s).store.f1CardId = s.f1CardId ∧
    (webhookRefreshPOST req w s).store.f1PlaylistTitle
      = s.f1PlaylistTitle ∧
    (webhookRefreshPOST req w s).store.f1DataHash = s.f1DataHash := by
  obtain ⟨fc, fm, ft, fh⟩ := refreshAccessToken_frame w.tokenRefresh s
  have hs0 : getStoredDataHash (refreshAccessToken w.tokenRefresh s).2
      = some h := by
    show (refreshAccessToken w.tokenRefresh s).2.f1DataHash = some h
    rw [fh, hstored]
  have hrun : webhookRefreshPOST req w s =
      ⟨.skipped h, (refreshAccessToken w.tokenRefresh s).2, []⟩ := by
    simp only [webhookRefreshPOST, hsec, hprov, hauth, hurl, hfetch,
      hhash]
    simp only [beq_self_eq_true, and_true, not_true, Bool.true_and,
      ite_false, ite_true, if_neg, not_false_iff]
    simp [hsec]
    rw [if_pos hrefresh,
      if_pos ⟨⟨by simp [truthy, hne], by rw [hs0]; simp [truthy, hne]⟩,
        hs0⟩]
  rw [hrun]
  exact ⟨rfl, rfl, fc, ft, fh⟩

/-- Witness for C1: with matching secrets, a valid token, no refresh
token, a configured worker URL and a payload hash equal to the stored
hash h1, the run is skipped and the example store unchanged. -/
theorem webhook_skip_short_circuit_witness :
    (webhookRefreshPOST exReq exWorld exStore).resp = .skipped "h1" ∧
    (webhookRefreshPOST exReq exWorld exStore).trace = [] ∧
    (webhookRefreshPOST exReq exWorld exStore).store.f1CardId
      = exStore.f1CardId ∧
    (webhookRefreshPOST exReq exWorld exStore).store.f1PlaylistTitle
      = exStore.f1PlaylistTitle ∧
    (webhookRefreshPOST exReq exWorld exStore).store.f1DataHash
      = exStore.f1DataHash :=
  webhook_skip_short_circuit exReq exWorld exStore
    ⟨some "h1", "Monaco Grand Prix", none, "2026-05-01"⟩ "h1" "tok"
    (by decide) rfl rfl (Or.inr (by decide)) (by decide) rfl rfl
    (by decide) rfl

/-- C2: the Identity Record fields (stored card id, playlist title,
content fingerprint) are left unchanged whenever any webhook pipeline
step aborts with an error, and any run that changes one of them is a
completed run whose reconciliation succeeded with a truthy card id — in
particular the stored fingerprint is never updated on a run whose card
creation or update did not succeed. -/
theorem webhook_identity_commit (req : WebhookReq) (w : WebhookWorld)
    (s : Store) (hid : w.reconcile.freshCardId ≠ "") :
    (isAbortResp (webhookRefreshPOST req w s).resp = true →
       (webhookRefreshPOST req w s).store.f1CardId = s.f1CardId ∧
       (webhookRefreshPOST req w s).store.f1PlaylistTitle
         = s.f1PlaylistTitle ∧
       (webhookRefreshPOST req w s).store.f1DataHash = s.f1DataHash) ∧
    ((webhookRefreshPOST req w s).store.f1CardId ≠ s.f1CardId ∨
     (webhookRefreshPOST req w s).store.f1PlaylistTitle
       ≠ s.f1PlaylistTitle ∨
     (webhookRefreshPOST req w s).store.f1DataHash ≠ s.f1DataHash →
      ∃ c u t d, (webhookRefreshPOST req w s).resp = .completed c u t d ∧
        c ≠ "") := by
  rcases webhookRefreshPOST_shape req w s with
    ⟨htr, h1, h2, h3, hnc⟩ | ⟨wd, hwd, heq⟩
  · refine ⟨fun _ => ⟨h1, h2, h3⟩, fun hch => ?_⟩
    rcases hch with hch | hch | hch
    · exact (hch h1).elim
    · exact (hch h2).elim
    · exact (hch h3).elim
  · obtain ⟨fc, fm, ft, fh⟩ := refreshAccessToken_frame w.tokenRefresh s
    rcases webhookPipeline_cases w wd wd.dataHash
        (refreshAccessToken w.tokenRefresh s).2 with
      ⟨c, u, t, d, hresp, himp⟩ | ⟨hresp, hstore⟩
    · rw [heq]
      refine ⟨fun habort => ?_, fun _ => ⟨c, u, t, d, hresp, himp hid⟩⟩
      rw [hresp] at habort
      simp [isAbortResp] at habort
    · rw [heq]
      refine ⟨fun _ => ⟨?_, ?_, ?_⟩, fun hch => ?_⟩
      · rw [hstore]; exact fc
      · rw [hstore]; exact ft
      · rw [hstore]; exact fh
      · rcases hch with hch | hch | hch
        · exact (hch (by rw [hstore]; exact fc)).elim
        · exact (hch (by rw [hstore]; exact ft)).elim
        · exact (hch (by rw [hstore]; exact fh)).elim

/-- Witness for C2: a run aborting at the missing-secret gate leaves the
identity fields of the example store unchanged. -/
theorem webhook_identity_commit_witness :
    (webhookRefreshPOST ⟨none, none, none⟩ exWorld exStore).store.f1CardId
      = exStore.f1CardId ∧
    (webhookRefreshPOST ⟨none, none, none⟩ exWorld
      exStore).store.f1PlaylistTitle = exStore.f1PlaylistTitle ∧
    (webhookRefreshPOST ⟨none, none, none⟩ exWorld
      exStore).store.f1DataHash = exStore.f1DataHash :=
  (webhook_identity_commit ⟨none, none, none⟩ exWorld exStore
    (by decide)).1 (by decide)

/-- C4: a truthy stored playlist title survives any number of
consecutive webhook refreshes unchanged and is reused verbatim for every
synthesis submission, regardless of the race names carried by the
payloads; only a run starting with no stored title derives the fresh
title F1: followed by the race name, and a completed such run stores
exactly the title it reported. -/
theorem webhook_title_stability (cfgs : List (WebhookReq × WebhookWorld))
    (req : WebhookReq) (w : WebhookWorld) (s : Store) (t : String) :
    (s.f1PlaylistTitle = some t → t ≠ "" →
      ((webhookRuns cfgs s).f1PlaylistTitle = some t ∧
       ∀ u, Action.synthesize u ∈ (webhookRefreshPOST req w s).trace →
         u = t)) ∧
    (s.f1PlaylistTitle = none →
      (∀ u, Action.synthesize u ∈ (webhookRefreshPOST req w s).trace →
         u = "F1: " ++ raceNameOf w) ∧
      (∀ c u tt d,
         (webhookRefreshPOST req w s).resp = .completed c u tt d →
         tt = "F1: " ++ raceNameOf w ∧
         (c ≠ "" →
           (webhookRefreshPOST req w s).store.f1PlaylistTitle
             = some tt))) := by
  constructor
  · intro ht hne
    exact ⟨webhookRuns_title cfgs s t ht hne,
      (webhookRefreshPOST_title_invariant req w s t ht hne).2⟩
  · intro ht
    exact webhookRefreshPOST_fresh req w s ht

/-- Witness for C4: the stored title of the example store survives one
concrete webhook run and is the only title ever synthesized. -/
theorem webhook_title_stability_witness :
    (webhookRuns [(exReq, exWorld)] exStore).f1PlaylistTitle
      = some "F1: Spanish Grand Prix" ∧
    ∀ u, Action.synthesize u ∈
        (webhookRefreshPOST exReq exWorld exStore).trace →
      u = "F1: Spanish Grand Prix" :=
  (webhook_title_stability [(exReq, exWorld)] exReq exWorld exStore
    "F1: Spanish Grand Prix").1 rfl (by decide)

/-- C3: with a valid session, valid chapters, a successful cover upload
and a non-aborting backend that assigns truthy fresh ids, a send-to-yoto
run with no stored card id creates a card (isUpdate false, the fresh
card id stored), and a run with a truthy stored card id and
updateExisting set updates that same card in place (isUpdate true, id
unchanged) unless the backend forces the create fallback. -/
theorem sendToYoto_create_then_update (req : SendReq) (w : SendWorld)
    (s : Store) (tok : String) (chs : List ChapterIn) (cv : Option String)
    (hauth : getAccessToken s = some tok)
    (hch : req.chapters = some chs)
    (hlen : chs.length ≠ 0)
    (hcover : w.coverUpload = .ok cv)
    (hab : w.reconcile.aborts = false)
    (hfresh : w.reconcile.freshCardId ≠ "") :
    (s.f1CardId = none →
      ∃ d, (sendToYotoPOST req w s).1
          = .completed w.reconcile.freshCardId false d ∧
        (sendToYotoPOST req w s).2.f1CardId
          = some w.reconcile.freshCardId) ∧
    (∀ c, s.f1CardId = some c → c ≠ "" → req.updateExisting = true →
      w.reconcile.forcesFallback = false →
      ∃ d, (sendToYotoPOST req w s).1 = .completed c true d ∧
        (sendToYotoPOST req w s).2.f1CardId = some c) := by
  constructor
  · intro hnone
    have hrec : createOrUpdateTTSPlaylist
        (if req.updateExisting then getStoredCardId s else none)
        w.reconcile
        = .ok ⟨w.reconcile.freshCardId, false, w.reconcile.jobId,
               w.reconcile.jobStatus⟩ := by
      simp [getStoredCardId, hnone, createOrUpdateTTSPlaylist, hab, truthy]
    refine ⟨(match deployToAllDevices w.devicesResult w.deployOutcome with
             | .ok agg => some agg
             | .error _ => some ⟨0, 0, 0, []⟩), ?_, ?_⟩ <;>
      simp [sendToYotoPOST, hauth, hch, hlen, hcover, hrec, hfresh,
        storeCardId, storePlaylistTitle]
  · intro c hsome hcne hupd hnofb
    have hrec : createOrUpdateTTSPlaylist
        (if req.updateExisting then getStoredCardId s else none)
        w.reconcile
        = .ok ⟨c, true, w.reconcile.jobId, w.reconcile.jobStatus⟩ := by
      simp [getStoredCardId, hsome, hupd, createOrUpdateTTSPlaylist, hab,
        truthy, hcne, hnofb]
    refine ⟨(match deployToAllDevices w.devicesResult w.deployOutcome with
             | .ok agg => some agg
             | .error _ => some ⟨0, 0, 0, []⟩), ?_, ?_⟩ <;>
      simp [sendToYotoPOST, hauth, hch, hlen, hcover, hrec, hcne,
        storeCardId, storePlaylistTitle]

/-- Witness for C3: a concrete first run with no stored card id creates
card-1 with isUpdate false and stores it. -/
theorem sendToYoto_create_then_update_witness :
    ∃ d, (sendToYotoPOST
        ⟨some [⟨"Next F1 Race", none, [⟨"T", "x", none, none⟩]⟩],
         "F1: Next Race", true⟩
        ⟨.ok none, ⟨false, false, "card-1", "job-1", "ok"⟩, .ok [],
         fun _ => true⟩
        ⟨some ⟨"tok", none⟩, none, none, none, none⟩).1
      = .completed "card-1" false d ∧
    (sendToYotoPOST
        ⟨some [⟨"Next F1 Race", none, [⟨"T", "x", none, none⟩]⟩],
         "F1: Next Race", true⟩
        ⟨.ok none, ⟨false, false, "card-1", "job-1", "ok"⟩, .ok [],
         fun _ => true⟩
        ⟨some ⟨"tok", none⟩, none, none, none, none⟩).2.f1CardId
      = some "card-1" :=
  (sendToYoto_create_then_update
    ⟨some [⟨"Next F1 Race", none, [⟨"T", "x", none, none⟩]⟩],
     "F1: Next Race", true⟩
    ⟨.ok none, ⟨false, false, "card-1", "job-1", "ok"⟩, .ok [],
     fun _ => true⟩
    ⟨some ⟨"tok", none⟩, none, none, none, none⟩
    "tok" [⟨"Next F1 Race", none, [⟨"T", "x", none, none⟩]⟩] none
    rfl rfl (by decide) rfl rfl (by decide)).1 rfl

/-- Witness for C6 with a job stuck in the processing state for a budget
of five attempts. -/
theorem transcode_wait_bounded_witness :
    (∀ i, i < 5 →
      isTerminalStatus ((fun _ => TranscodeStatus.processing) i) = false) ∧
    waitForTranscoding (fun _ => TranscodeStatus.processing) 0 5
      = .error .timedOut :=
  ⟨fun _ _ => rfl,
   (transcode_wait_bounded (fun _ => TranscodeStatus.processing) 5
     (fun _ _ => rfl)).1⟩

end CountdownF1
